import Mathlib

/-!
Shallow embedding of the Developer Aggregator gateway (FastAPI + httpx).

Each upstream HTTP call is modelled by a `NetResult` value supplied as an
argument (the network oracle): `success` is a 2xx response carrying the decoded
JSON payload, `httpError` is `httpx.HTTPStatusError` after `raise_for_status`
(carrying the upstream status code and body text), and `transportError` is
`httpx.RequestError` (carrying `str(exc)`).  `HTTPException(status, detail)`
raised by a handler is modelled as `Except.error ⟨status, detail⟩`.
-/

/-- The payload of a FastAPI `HTTPException`: status code and detail message. -/
structure HErr where
  status : Nat
  detail : String
deriving Repr, DecidableEq

/-- Outcome of one upstream HTTP call, as seen by a handler after
`raise_for_status`.  The string on `transportError` is `str(exc)`. -/
inductive NetResult (α : Type) where
  | success (payload : α)
  | httpError (status : Nat) (body : String)
  | transportError (msg : String)
deriving Repr, DecidableEq

/-- Python truthiness of an `int | None` value: `None` and `0` are falsy. -/
def pyTruthyInt : Option Int → Bool
  | none => false
  | some n => n != 0

/-- Python truthiness of a `str | None` value: `None` and `""` are falsy. -/
def pyTruthyStr : Option String → Bool
  | none => false
  | some s => s != ""

namespace HackerNews

/-- The `Story` pydantic model of `single_application/hacker_news.py`
(`by` is a Lean keyword, rendered `by_`). -/
structure Story where
  id : Int
  title : String
  url : Option String
  by_ : String
  score : Int
  time : Int
  type_ : String
  descendants : Int
deriving Repr, DecidableEq

/-- A decoded HN item JSON object.  Every key except `id` may be absent
(`Story(**data)` then falls back to the pydantic default); an object without
an `id` key would fail pydantic validation and is outside the model. -/
structure ItemData where
  id : Int
  title : Option String
  url : Option String
  by_ : Option String
  score : Option Int
  time : Option Int
  type_ : Option String
  descendants : Option Int
deriving Repr, DecidableEq

/-- Embedding of `Story(**data)`: copy each present key, pydantic default otherwise. -/
def Story.ofItem (d : ItemData) : Story :=
  { id := d.id
    title := d.title.getD "N/A"
    url := d.url
    by_ := d.by_.getD "N/A"
    score := d.score.getD 0
    time := d.time.getD 0
    type_ := d.type_.getD "N/A"
    descendants := d.descendants.getD 0 }

/-- Embedding of `fetch_item`: returns the decoded JSON on success (`null` decodes to
`None`, modelled `success none`), and `None` on any `HTTPStatusError` or
`RequestError`. -/
def fetch_item (resp : NetResult (Option ItemData)) : Option ItemData :=
  match resp with
  | .success payload => payload
  | .httpError _ _ => none
  | .transportError _ => none

/-- Embedding of `get_stories_by_type`: fetch the id list, keep the first 10 ids, fetch
each item concurrently via `fetch_item`, then build a `Story` for every
result that is truthy and whose `type` key equals `"story"`. -/
def get_stories_by_type (story_type : String) (listResp : NetResult (List Int))
    (itemResp : Int → NetResult (Option ItemData)) : Except HErr (List Story) :=
  match listResp with
  | .success ids =>
      let story_ids := ids.take 10
      let results := story_ids.map (fun i => fetch_item (itemResp i))
      .ok (results.filterMap (fun data =>
        match data with
        | some d => if d.type_ = some "story" then some (Story.ofItem d) else none
        | none => none))
  | .httpError status body =>
      .error ⟨status, "Failed to fetch " ++ story_type ++ " stories: " ++ body⟩
  | .transportError _ =>
      .error ⟨503, "Could not connect to the Hacker News API."⟩

/-- Embedding of `get_story_item` (GET `/item/{item_id}`): any falsy `fetch_item` result —
including one caused by a transport error — becomes a 404. -/
def get_story_item (item_id : Int) (resp : NetResult (Option ItemData)) :
    Except HErr Story :=
  match fetch_item resp with
  | none =>
      .error ⟨404, "Item with ID " ++ toString item_id ++
        " not found or failed to fetch."⟩
  | some d => .ok (Story.ofItem d)

/-- A decoded HN user JSON object (`User(**user_data)` needs `id`, `created`
and `karma`; `about` and `submitted` have pydantic defaults). -/
structure UserData where
  id : String
  created : Int
  karma : Int
  about : Option String
  submitted : List Int
deriving Repr, DecidableEq

/-- Embedding of `fetch_user`: 404 for a falsy (null) payload, status-preserving error for
an upstream HTTP error, 503 for a transport error. -/
def fetch_user (user_id : String) (resp : NetResult (Option UserData)) :
    Except HErr UserData :=
  match resp with
  | .success (some u) => .ok u
  | .success none =>
      .error ⟨404, "User '" ++ user_id ++ "' not found"⟩
  | .httpError status body =>
      .error ⟨status, "Failed to fetch user: " ++ body⟩
  | .transportError _ =>
      .error ⟨503, "Could not connect to the Hacker News API."⟩

end HackerNews

namespace StackOverflow

/-- Environment-sourced defaults of `single_application/stackoverflow.py`:
`STACKOVERFLOW_USER_ID` and `STACKOVERFLOW_USERNAME` (`os.getenv` returns
`None` when unset). -/
structure Config where
  defaultUserId : Option String
  defaultUsername : Option String
deriving Repr, DecidableEq

/-- One element of the `items` array of the Stack Exchange `/users` search
(only `user_id` is read; a missing `user_id` key would raise, outside the
model). -/
structure UserItem where
  user_id : Int
deriving Repr, DecidableEq

/-- Python `int(s)` on the configured default id (raises on a non-numeric
string; configured defaults are assumed numeric, so that case is out of
scope and mapped to 0 here). -/
def pyInt (s : String) : Int := s.toInt?.getD 0

/-- Embedding of `get_user_id_from_username`: one upstream `/users?inname=` call; a
missing `items` key defaults to `[]` (`resp.json().get("items", [])`), and an
empty item list is a 404. -/
def get_user_id_from_username (resp : NetResult (List UserItem))
    (username : String) : Except HErr Int :=
  match resp with
  | .success [] =>
      .error ⟨404, "Stack Overflow user '" ++ username ++ "' not found"⟩
  | .success (item :: _) => .ok item.user_id
  | .httpError status _ => .error ⟨status, "Failed to fetch user ID."⟩
  | .transportError _ =>
      .error ⟨503, "Could not connect to the Stack Exchange API."⟩

/-- Embedding of `resolve_user_id`: the four-stage fallback chain, guarded by Python
truthiness.  The second component counts upstream HTTP calls made during
resolution (`get_user_id_from_username` performs exactly one). -/
def resolve_user_id (cfg : Config) (lookupResp : String → NetResult (List UserItem))
    (user_id : Option Int) (username : Option String) :
    Except HErr Int × Nat :=
  if pyTruthyInt user_id then (.ok (user_id.getD 0), 0)
  else if pyTruthyStr cfg.defaultUserId then
    (.ok (pyInt (cfg.defaultUserId.getD "")), 0)
  else if pyTruthyStr username then
    let name := username.getD ""
    (get_user_id_from_username (lookupResp name) name, 1)
  else if pyTruthyStr cfg.defaultUsername then
    let name := cfg.defaultUsername.getD ""
    (get_user_id_from_username (lookupResp name) name, 1)
  else (.error ⟨400, "A Stack Overflow user_id or username must be provided."⟩, 0)

/-- The `Question` pydantic model: `Question(**q)` requires `question_id`,
`title` and `link` in the upstream item. -/
structure Question where
  question_id : Int
  title : String
  link : String
deriving Repr, DecidableEq

/-- Embedding of `fetch_questions` (GET `/questions`): resolve the user, then fetch that
user's questions and keep the first 10.  The questions call has no
`RequestError` handler, so a transport failure there escapes as an unhandled
exception (FastAPI's generic 500).  The second component counts upstream
calls. -/
def fetch_questions (cfg : Config)
    (lookupResp : String → NetResult (List UserItem))
    (questionsResp : Int → NetResult (List Question))
    (user_id : Option Int) (username : Option String) :
    Except HErr (List Question) × Nat :=
  match resolve_user_id cfg lookupResp user_id username with
  | (.error e, n) => (.error e, n)
  | (.ok uid, n) =>
      match questionsResp uid with
      | .success items => (.ok (items.take 10), n + 1)
      | .httpError status _ =>
          (.error ⟨status, "Failed to fetch questions."⟩, n + 1)
      | .transportError _ =>
          (.error ⟨500, "Internal Server Error"⟩, n + 1)

end StackOverflow

namespace Codeforces

/-- The `Contest` pydantic model of `single_application/codeforces.py`. -/
structure Contest where
  id : Int
  name : String
  phase : String
  link : String
deriving Repr, DecidableEq

/-- One element of the upstream `result` array.  `id` and `name` are required
by `Contest(**c)`; `phase` is read with `c.get('phase')`, so may be absent. -/
structure ContestPayload where
  id : Int
  name : String
  phase : Option String
deriving Repr, DecidableEq

/-- Build the gateway `Contest` from an upstream contest that passed the
phase filter (so its `phase` key is the string `"BEFORE"`). -/
def Contest.ofPayload (c : ContestPayload) : Contest :=
  { id := c.id
    name := c.name
    phase := c.phase.getD "BEFORE"
    link := "https://codeforces.com/contest/" ++ toString c.id }

/-- Embedding of `get_contests` (GET `/contests`): the upstream payload is
`resp.json()["result"]`; a missing `result` key (`none`) raises `KeyError`,
caught together with `HTTPStatusError` as a 500.  Otherwise filter to phase
`"BEFORE"`, then cap at 10. -/
def get_contests (resp : NetResult (Option (List ContestPayload))) :
    Except HErr (List Contest) :=
  match resp with
  | .success (some contests) =>
      let upcoming := (contests.filter (fun c => c.phase == some "BEFORE")).map
        Contest.ofPayload
      .ok (upcoming.take 10)
  | .success none =>
      .error ⟨500, "Failed to fetch or parse contests: KeyError"⟩
  | .httpError status _ =>
      .error ⟨500, "Failed to fetch or parse contests: status " ++ toString status⟩
  | .transportError _ =>
      .error ⟨503, "Could not connect to the Codeforces API."⟩

/-- The `UserInfo` pydantic model. -/
structure UserInfo where
  handle : String
  firstName : Option String
  lastName : Option String
  country : Option String
  organization : Option String
  rating : Option Int
  maxRating : Option Int
  rank : Option String
  maxRank : Option String
  lastOnline : Option String
  profileLink : String
deriving Repr, DecidableEq

/-- One element of the upstream `result` array of `user.info`.  `handle` is
required (`user_data['handle']`); the rest are optional. -/
structure UserPayload where
  handle : String
  firstName : Option String
  lastName : Option String
  country : Option String
  organization : Option String
  rating : Option Int
  maxRating : Option Int
  rank : Option String
  maxRank : Option String
  lastOnlineTimeSeconds : Option Int
deriving Repr, DecidableEq

/-- Embedding of `format_time`: falsy timestamps (`None` or `0`) give `None`; otherwise
`datetime.fromtimestamp(..).strftime(..)`, supplied as the `strftime`
collaborator. -/
def format_time (strftime : Int → String) (timestamp : Option Int) :
    Option String :=
  match timestamp with
  | none => none
  | some t => if t = 0 then none else some (strftime t)

/-- Build the gateway `UserInfo` from an upstream user object. -/
def UserInfo.ofPayload (strftime : Int → String) (u : UserPayload) : UserInfo :=
  { handle := u.handle
    firstName := u.firstName
    lastName := u.lastName
    country := u.country
    organization := u.organization
    rating := u.rating
    maxRating := u.maxRating
    rank := u.rank
    maxRank := u.maxRank
    lastOnline := format_time strftime u.lastOnlineTimeSeconds
    profileLink := "https://codeforces.com/profile/" ++ u.handle }

/-- Embedding of `get_default_user_info` (GET `/userinfo/me`): an unset
`CODEFORCES_HANDLE` (empty string, the `os.getenv` default) fails with a
**400** naming the setting, before the upstream call.  Then
`resp.json()["result"][0]`: a missing `result` key or empty array raises
`KeyError`/`IndexError`, caught as a 404. -/
def get_default_user_info (handle : String) (strftime : Int → String)
    (resp : NetResult (Option (List UserPayload))) : Except HErr UserInfo :=
  if handle = "" then
    .error ⟨400, "CODEFORCES_HANDLE is not set in the environment file."⟩
  else
    match resp with
    | .success (some (u :: _)) => .ok (UserInfo.ofPayload strftime u)
    | .success (some []) =>
        .error ⟨404, "Default Codeforces user '" ++ handle ++ "' not found."⟩
    | .success none =>
        .error ⟨404, "Default Codeforces user '" ++ handle ++ "' not found."⟩
    | .httpError _ _ =>
        .error ⟨404, "Default Codeforces user '" ++ handle ++ "' not found or API error."⟩
    | .transportError _ =>
        .error ⟨503, "Could not connect to the Codeforces API."⟩

end Codeforces

namespace GitLab

/-- The `Pipeline` pydantic model of `single_application/gitlab.py`. -/
structure Pipeline where
  project : String
  pipeline_id : Int
  status : String
  url : String
deriving Repr, DecidableEq

/-- One upstream project object: `p['id']` and `p['name']` are read
(required). -/
structure ProjectPayload where
  id : Int
  name : String
deriving Repr, DecidableEq

/-- One upstream pipeline object: `p['id']`, `p['status']`, `p['web_url']`
are read (required). -/
structure PipelinePayload where
  id : Int
  status : String
  web_url : String
deriving Repr, DecidableEq

/-- Embedding of `get_pipelines_for_project`: shape the pipelines of one project; **any**
`HTTPStatusError` or `RequestError` for this project yields `[]` (the
project is silently dropped). -/
def get_pipelines_for_project (project : ProjectPayload)
    (resp : NetResult (List PipelinePayload)) : List Pipeline :=
  match resp with
  | .success pipelines =>
      pipelines.map (fun p =>
        { project := project.name
          pipeline_id := p.id
          status := p.status
          url := p.web_url })
  | .httpError _ _ => []
  | .transportError _ => []

/-- Embedding of `get_gitlab_headers`: an unset `GITLAB_TOKEN` (empty string, the
`os.getenv` default) is a 500 naming the setting; raised before any
upstream call of the endpoint that invoked it. -/
def get_gitlab_headers (token : String) : Except HErr String :=
  if token = "" then
    .error ⟨500, "GITLAB_TOKEN not found in .env file."⟩
  else .ok token

/-- Embedding of `fetch_pipelines` (GET `/pipelines`): token check, then the first-stage
projects call — whose failure fails the whole request — then one
`get_pipelines_for_project` per project, flattened in project order. -/
def fetch_pipelines (token : String)
    (projectsResp : NetResult (List ProjectPayload))
    (pipelinesResp : Int → NetResult (List PipelinePayload)) :
    Except HErr (List Pipeline) :=
  match get_gitlab_headers token with
  | .error e => .error e
  | .ok _ =>
      match projectsResp with
      | .success projects =>
          .ok ((projects.map (fun p =>
            get_pipelines_for_project p (pipelinesResp p.id))).flatten)
      | .httpError status body =>
          .error ⟨status, "Failed to fetch initial projects for pipelines: " ++ body⟩
      | .transportError _ =>
          .error ⟨503, "Could not connect to the GitLab API."⟩

end GitLab

namespace GithubEp

/-- The `Release` pydantic model of `endpoints/github_ep.py`. -/
structure Release where
  tag_name : String
  name : Option String
  url : String
  published_at : String
deriving Repr, DecidableEq

/-- One upstream release object; every read uses `.get` with a default, so
all fields may be absent. -/
structure ReleasePayload where
  tag_name : Option String
  name : Option String
  html_url : Option String
  published_at : Option String
deriving Repr, DecidableEq

/-- The shaping of one upstream release. -/
def Release.ofPayload (r : ReleasePayload) : Release :=
  { tag_name := r.tag_name.getD "No Tag"
    name := some (r.name.getD "No Name")
    url := r.html_url.getD ""
    published_at := r.published_at.getD "" }

/-- Embedding of `fetch_releases` (GET `/{owner}/{repo}/releases`): 404 is mapped to a
not-found naming the repo, other HTTP errors propagate the status, transport
errors are 503.  On success **every** element of the upstream array is
shaped and returned — there is no `[:30]` truncation in the code. -/
def fetch_releases (owner repo : String)
    (resp : NetResult (List ReleasePayload)) : Except HErr (List Release) :=
  match resp with
  | .success releases => .ok (releases.map Release.ofPayload)
  | .httpError status body =>
      if status = 404 then
        .error ⟨404, "Repository '" ++ owner ++ "/" ++ repo ++ "' not found."⟩
      else
        .error ⟨status, "Error fetching releases: " ++ body⟩
  | .transportError msg =>
      .error ⟨503, "Service unavailable: " ++ msg⟩

end GithubEp

namespace GFG

/-- The first `<a href=...>` anchor inside the POTD container. -/
structure Anchor where
  text : String
  href : String
deriving Repr, DecidableEq

/-- The `div` whose class matches `POTD_header-main`, if the page has one,
and its first anchor, if any. -/
structure PotdPage where
  potdDiv : Option (Option Anchor)
deriving Repr, DecidableEq

/-- The `GFGPOTD` pydantic model (both fields optional with default
`"Not found"`; the handler always supplies both). -/
structure GFGPOTD where
  title : Option String
  link : Option String
deriving Repr, DecidableEq

/-- The page URL scraped by the POTD endpoint. -/
def potdUrl : String := "https://www.geeksforgeeks.org/problem-of-the-day"

/-- Embedding of `get_gfg_potd` (GET `/potd`): a found container with a found anchor
yields the anchor's stripped text and href as a successful record; a missing
container **or** missing anchor yields a successful placeholder record (a
200, not an error); any exception — HTTP error status, transport failure,
parse failure — is caught by the blanket `except Exception` as one generic
500. -/
def get_gfg_potd (resp : NetResult PotdPage) : Except HErr GFGPOTD :=
  match resp with
  | .success page =>
      match page.potdDiv with
      | some (some a) => .ok { title := some a.text.trim, link := some a.href }
      | some none =>
          .ok { title := some "Could not parse POTD title/link from page"
                link := some potdUrl }
      | none =>
          .ok { title := some "Could not parse POTD title/link from page"
                link := some potdUrl }
  | .httpError _ _ =>
      .error ⟨500, "Failed to fetch or parse the GFG POTD page."⟩
  | .transportError _ =>
      .error ⟨500, "Failed to fetch or parse the GFG POTD page."⟩

end GFG

namespace Aggregator

/-- The `app.include_router(...)` calls of `aggregator/aggregator_main.py`,
in program order: (path prefix, router module). -/
def registrations : List (String × String) :=
  [("/devto", "devto_router"),
   ("/kaggle", "kaggle_router"),
   ("/codeforces", "codeforces_router"),
   ("/gitlab", "gitlab_router"),
   ("/pypi", "pypi_router"),
   ("/npm", "npm_router"),
   ("/reddit", "reddit_router"),
   ("/github", "old_github_router"),
   ("/hackernews", "old_hackernews_router"),
   ("/stackoverflow", "old_stackoverflow_router")]

/-- The path prefixes under which at least one router is registered. -/
def registeredPrefixes : List String := registrations.map (·.1)

/-- The body of GET `/features`, in program order: source key, example
endpoint, description. -/
def featuresBody : List (String × String × String) :=
  [("devto", "/devto/articles", "Fetch latest DEV.to articles"),
   ("kaggle", "/kaggle/datasets", "List trending Kaggle datasets"),
   ("codeforces", "/codeforces/contests", "Get upcoming Codeforces contests"),
   ("gitlab", "/gitlab/projects", "List your GitLab projects"),
   ("pypi", "/pypi/latest", "Get the latest packages from PyPI"),
   ("npm", "/npm/search?text=react", "Search for packages on npm"),
   ("reddit", "/reddit/top/programming", "Get top posts from a specified subreddit"),
   ("github", "/github/repos", "List your GitHub repositories"),
   ("hackernews", "/hackernews/topstories", "List top stories from Hacker News"),
   ("stackoverflow", "/stackoverflow/questions", "Get recent Stack Overflow questions")]

/-- The source prefixes enumerated by `/features` (its keys, as path
prefixes). -/
def featuresPrefixes : List String := featuresBody.map (fun f => "/" ++ f.1)

end Aggregator

namespace Codeforces

/-- Embedding of `get_user_info` (GET `/userinfo/{handle}`): like the
default-user variant but without the env gate, and with messages not
prefixed by "Default". -/
def get_user_info (handle : String) (strftime : Int → String)
    (resp : NetResult (Option (List UserPayload))) : Except HErr UserInfo :=
  match resp with
  | .success (some (u :: _)) => .ok (UserInfo.ofPayload strftime u)
  | .success (some []) =>
      .error ⟨404, "Codeforces user '" ++ handle ++ "' not found."⟩
  | .success none =>
      .error ⟨404, "Codeforces user '" ++ handle ++ "' not found."⟩
  | .httpError _ _ =>
      .error ⟨404, "Codeforces user '" ++ handle ++ "' not found or API error."⟩
  | .transportError _ =>
      .error ⟨503, "Could not connect to the Codeforces API."⟩

end Codeforces

namespace GitLab

/-- One upstream project object as read by `fetch_projects`: `p['id']`,
`p['name']`, `p['web_url']` (required). -/
structure ProjectItem where
  id : Int
  name : String
  web_url : String
deriving Repr, DecidableEq

/-- The `Project` pydantic model of `single_application/gitlab.py`. -/
structure Project where
  id : Int
  name : String
  url : String
deriving Repr, DecidableEq

/-- Embedding of `fetch_projects` (GET `/projects`): token gate, then one
upstream call; status-preserving HTTP error, 503 transport error. -/
def fetch_projects (token : String) (resp : NetResult (List ProjectItem)) :
    Except HErr (List Project) :=
  match get_gitlab_headers token with
  | .error e => .error e
  | .ok _ =>
      match resp with
      | .success projects =>
          .ok (projects.map (fun p => ⟨p.id, p.name, p.web_url⟩))
      | .httpError status body =>
          .error ⟨status, "Failed to fetch GitLab projects: " ++ body⟩
      | .transportError _ =>
          .error ⟨503, "Could not connect to the GitLab API."⟩

/-- One upstream issue object as read by `fetch_issues`: `i['id']`,
`i['title']`, `i['web_url']` (required). -/
structure IssueItem where
  id : Int
  title : String
  web_url : String
deriving Repr, DecidableEq

/-- The `Issue` pydantic model of `single_application/gitlab.py`. -/
structure Issue where
  id : Int
  title : String
  url : String
deriving Repr, DecidableEq

/-- Embedding of `fetch_issues` (GET `/issues`): token gate, one upstream
call, same error mapping as `fetch_projects`. -/
def fetch_issues (token : String) (resp : NetResult (List IssueItem)) :
    Except HErr (List Issue) :=
  match get_gitlab_headers token with
  | .error e => .error e
  | .ok _ =>
      match resp with
      | .success issues =>
          .ok (issues.map (fun i => ⟨i.id, i.title, i.web_url⟩))
      | .httpError status body =>
          .error ⟨status, "Failed to fetch GitLab issues: " ++ body⟩
      | .transportError _ =>
          .error ⟨503, "Could not connect to the GitLab API."⟩

end GitLab

namespace StackOverflow

/-- One upstream item of the featured-questions response; fields are read
with `.get`, but a missing one would fail the pydantic model's required
fields, so well-formed items carry all of them. -/
structure FeaturedPayload where
  title : String
  link : String
  bounty_amount : Int
  answer_count : Int
  owner_display_name : String
deriving Repr, DecidableEq

/-- The `FeaturedQuestion` pydantic model. -/
structure FeaturedQuestion where
  title : String
  link : String
  bounty_amount : Int
  answer_count : Int
  owner_display_name : String
deriving Repr, DecidableEq

/-- Embedding of `fetch_featured_questions` (GET `/featured`): one upstream
call (`items` defaults to `[]` when the key is absent), cap at 15;
status-preserving HTTP error, 503 transport error. -/
def fetch_featured_questions (resp : NetResult (List FeaturedPayload)) :
    Except HErr (List FeaturedQuestion) :=
  match resp with
  | .success items =>
      .ok ((items.take 15).map (fun q =>
        ⟨q.title, q.link, q.bounty_amount, q.answer_count, q.owner_display_name⟩))
  | .httpError status _ =>
      .error ⟨status, "Failed to fetch featured questions."⟩
  | .transportError _ =>
      .error ⟨503, "Could not connect to the Stack Exchange API."⟩

/-- One upstream answer item: `a['answer_id']` is required (used for the
synthesized link), and `Answer(**a)` needs `question_id` too. -/
structure AnswerItem where
  answer_id : Int
  question_id : Int
deriving Repr, DecidableEq

/-- The `Answer` pydantic model. -/
structure Answer where
  answer_id : Int
  question_id : Int
  link : String
deriving Repr, DecidableEq

/-- Embedding of `fetch_answers` (GET `/answers`): resolve the user, then
fetch answers, cap at 10, synthesize each link from the answer id.  Like
`fetch_questions`, the answers call has no `RequestError` handler, so a
transport failure there escapes as FastAPI's unhandled 500.  The second
component counts upstream calls. -/
def fetch_answers (cfg : Config)
    (lookupResp : String → NetResult (List UserItem))
    (answersResp : Int → NetResult (List AnswerItem))
    (user_id : Option Int) (username : Option String) :
    Except HErr (List Answer) × Nat :=
  match resolve_user_id cfg lookupResp user_id username with
  | (.error e, n) => (.error e, n)
  | (.ok uid, n) =>
      match answersResp uid with
      | .success items =>
          (.ok ((items.take 10).map (fun a =>
            ⟨a.answer_id, a.question_id,
              "https://stackoverflow.com/a/" ++ toString a.answer_id⟩)), n + 1)
      | .httpError status _ =>
          (.error ⟨status, "Failed to fetch answers."⟩, n + 1)
      | .transportError _ =>
          (.error ⟨500, "Internal Server Error"⟩, n + 1)

end StackOverflow

namespace GFG

/-- The decoded payload of the external GFG stats service (all keys read
with `.get`). -/
structure StatsPayload where
  totalProblemsSolved : Option Int
  easy : Option Int
  medium : Option Int
  hard : Option Int
deriving Repr, DecidableEq

/-- The `GFGStats` pydantic model. -/
structure GFGStats where
  totalSolved : Option Int
  easy : Option Int
  medium : Option Int
  hard : Option Int
deriving Repr, DecidableEq

/-- Embedding of `get_gfg_stats` (GET `/stats/{username}`):
status-preserving HTTP error naming the user, 503 transport error (the
trailing `except Exception` is unreachable for modelled inputs). -/
def get_gfg_stats (username : String) (resp : NetResult StatsPayload) :
    Except HErr GFGStats :=
  match resp with
  | .success d => .ok ⟨d.totalProblemsSolved, d.easy, d.medium, d.hard⟩
  | .httpError status _ =>
      .error ⟨status, "GFG stats fetch failed for user '" ++ username ++
        "'. The user may not exist."⟩
  | .transportError _ =>
      .error ⟨503, "Could not connect to the GFG stats service."⟩

end GFG

namespace GithubOld

/-- Embedding of `get_headers` of `single_application/github.py`: a falsy
`GITHUB_TOKEN` (unset → `None`) is a 500 naming the setting. -/
def get_headers (token : Option String) : Except HErr String :=
  if pyTruthyStr token then .ok (token.getD "")
  else .error ⟨500, "GITHUB_TOKEN not found. Please create a .env file with your token."⟩

/-- One upstream repo object: `r['id']`, `r['name']`, `r['html_url']`
(required). -/
structure RepoPayload where
  id : Int
  name : String
  html_url : String
deriving Repr, DecidableEq

/-- The `Repo` pydantic model of `single_application/github.py`. -/
structure Repo where
  id : Int
  name : String
  url : String
deriving Repr, DecidableEq

/-- Embedding of `fetch_repos` (GET `/repos`): the gate's `HTTPException`
is neither caught exception type, so it propagates; otherwise
status-preserving HTTP error, 503 transport error. -/
def fetch_repos (token : Option String) (resp : NetResult (List RepoPayload)) :
    Except HErr (List Repo) :=
  match get_headers token with
  | .error e => .error e
  | .ok _ =>
      match resp with
      | .success repos => .ok (repos.map (fun r => ⟨r.id, r.name, r.html_url⟩))
      | .httpError status body =>
          .error ⟨status, "Failed to fetch GitHub repos: " ++ body⟩
      | .transportError _ =>
          .error ⟨503, "Could not connect to the GitHub API."⟩

/-- One upstream issue object: `i['id']`, `i['title']`, `i['html_url']`
(required). -/
structure IssuePayload where
  id : Int
  title : String
  html_url : String
deriving Repr, DecidableEq

/-- The `Issue` pydantic model of `single_application/github.py`. -/
structure Issue where
  id : Int
  title : String
  url : String
deriving Repr, DecidableEq

/-- Embedding of `fetch_issues` (GET `/issues`): same structure and error
mapping as `fetch_repos`. -/
def fetch_issues (token : Option String) (resp : NetResult (List IssuePayload)) :
    Except HErr (List Issue) :=
  match get_headers token with
  | .error e => .error e
  | .ok _ =>
      match resp with
      | .success issues => .ok (issues.map (fun i => ⟨i.id, i.title, i.html_url⟩))
      | .httpError status body =>
          .error ⟨status, "Failed to fetch GitHub issues: " ++ body⟩
      | .transportError _ =>
          .error ⟨503, "Could not connect to the GitHub API."⟩

/-- The `/user` payload of `fetch_my_pull_requests`:
`user_resp.json()['login']` (required). -/
structure UserLoginPayload where
  login : String
deriving Repr, DecidableEq

/-- Embedding of `fetch_my_pull_requests` (GET `/pulls`): two sequential
upstream calls (user, then issue search); the search items are returned
verbatim (`α`), with a missing `items` key defaulting to `[]`.  The handler
catches `HTTPStatusError` status-preservingly, and **everything else** —
including the gate's `HTTPException` and any `RequestError` — in a blanket
`except Exception` that reports a generic 500. -/
def fetch_my_pull_requests (α : Type) (token : Option String)
    (userResp : NetResult UserLoginPayload)
    (searchResp : String → NetResult (Option (List α))) :
    Except HErr (List α) :=
  match get_headers token with
  | .error _ =>
      .error ⟨500, "An unexpected error occurred while fetching PRs."⟩
  | .ok _ =>
      match userResp with
      | .success u =>
          (match searchResp u.login with
          | .success items => .ok (items.getD [])
          | .httpError status body =>
              .error ⟨status, "Failed to fetch GitHub pull requests: " ++ body⟩
          | .transportError _ =>
              .error ⟨500, "An unexpected error occurred while fetching PRs."⟩)
      | .httpError status body =>
          .error ⟨status, "Failed to fetch GitHub pull requests: " ++ body⟩
      | .transportError _ =>
          .error ⟨500, "An unexpected error occurred while fetching PRs."⟩

/-- One upstream pull-request object of the per-repo endpoint: `pr['id']`,
`pr['title']`, `pr['html_url']`, `pr['user']['login']` (required). -/
structure PRPayload where
  id : Int
  title : String
  html_url : String
  user_login : String
deriving Repr, DecidableEq

/-- The `PullRequest` pydantic model. -/
structure PullRequest where
  id : Int
  title : String
  url : String
  user : String
deriving Repr, DecidableEq

/-- Embedding of `fetch_pull_requests` (GET `/repos/{owner}/{repo}/pulls`):
404 becomes a not-found naming the repo, other HTTP errors keep their
status, transport errors are 503. -/
def fetch_pull_requests (token : Option String) (owner repo : String)
    (resp : NetResult (List PRPayload)) : Except HErr (List PullRequest) :=
  match get_headers token with
  | .error e => .error e
  | .ok _ =>
      match resp with
      | .success prs =>
          .ok (prs.map (fun pr => ⟨pr.id, pr.title, pr.html_url, pr.user_login⟩))
      | .httpError status body =>
          if status = 404 then
            .error ⟨404, "Repository " ++ owner ++ "/" ++ repo ++ " not found."⟩
          else
            .error ⟨status, "Failed to fetch pull requests for " ++ owner ++ "/" ++
              repo ++ ": " ++ body⟩
      | .transportError _ =>
          .error ⟨503, "Could not connect to the GitHub API."⟩

end GithubOld

namespace Devto

/-- Embedding of `get_headers` of `single_application/devto.py`: a falsy
`DEVTO_API_KEY` (unset → `None`) is a 500 naming the setting. -/
def get_headers (api_key : Option String) : Except HErr String :=
  if pyTruthyStr api_key then .ok (api_key.getD "")
  else .error ⟨500, "DEVTO_API_KEY not found in .env file."⟩

/-- One upstream article object: `a["id"]` is required; the rest are read
with `.get`.  `user_name` models `a.get("user", {}).get("name")`;
`tag_list` models a present list (the `isinstance` guard's non-list branch
is outside the model). -/
structure ArticlePayload where
  id : Int
  title : Option String
  url : Option String
  user_name : Option String
  tag_list : Option (List String)
deriving Repr, DecidableEq

/-- The `Article` pydantic model of `single_application/devto.py`. -/
structure Article where
  id : Int
  title : String
  url : String
  author : Option String
  tags : Option String
deriving Repr, DecidableEq

/-- The shaping of one upstream article (tags joined with `", "`). -/
def Article.ofPayload (a : ArticlePayload) : Article :=
  { id := a.id
    title := a.title.getD "No Title"
    url := a.url.getD ""
    author := a.user_name
    tags := some (String.intercalate ", " (a.tag_list.getD [])) }

/-- Embedding of `fetch_articles` (GET `/articles`): key gate (whose
`HTTPException` propagates uncaught), then one upstream call;
status-preserving HTTP error, 503 transport error carrying `str(exc)`. -/
def fetch_articles (api_key : Option String)
    (resp : NetResult (List ArticlePayload)) : Except HErr (List Article) :=
  match get_headers api_key with
  | .error e => .error e
  | .ok _ =>
      match resp with
      | .success articles => .ok (articles.map Article.ofPayload)
      | .httpError status body =>
          .error ⟨status, "Error fetching articles: " ++ body⟩
      | .transportError msg =>
          .error ⟨503, "Service unavailable: " ++ msg⟩

/-- Embedding of `fetch_single_article` (GET `/article/{article_id}`): same
gate; 404 names the article id, other HTTP errors keep their status,
transport errors are 503. -/
def fetch_single_article (api_key : Option String) (article_id : Int)
    (resp : NetResult ArticlePayload) : Except HErr Article :=
  match get_headers api_key with
  | .error e => .error e
  | .ok _ =>
      match resp with
      | .success a => .ok (Article.ofPayload a)
      | .httpError status body =>
          if status = 404 then
            .error ⟨404, "Article with ID " ++ toString article_id ++ " not found."⟩
          else
            .error ⟨status, "Error fetching article: " ++ body⟩
      | .transportError msg =>
          .error ⟨503, "Service unavailable: " ++ msg⟩

end Devto

namespace Kaggle

/-- Embedding of `get_kaggle_auth`: either credential empty (the `os.getenv`
default) is a 500 naming the settings. -/
def get_kaggle_auth (username key : String) : Except HErr (String × String) :=
  if username = "" ∨ key = "" then
    .error ⟨500, "KAGGLE_USERNAME or KAGGLE_KEY not found in .env file."⟩
  else .ok (username, key)

/-- One upstream dataset object: `d['title']`, `d['ref']` (required). -/
structure DatasetPayload where
  title : String
  ref : String
deriving Repr, DecidableEq

/-- The `Dataset` pydantic model of `single_application/kaggle.py`. -/
structure Dataset where
  title : String
  ref : String
  url : String
deriving Repr, DecidableEq

/-- Embedding of `fetch_datasets` (GET `/datasets`): credential gate, one
upstream call, link synthesized from `ref`; status-preserving HTTP error,
503 transport error. -/
def fetch_datasets (username key : String)
    (resp : NetResult (List DatasetPayload)) : Except HErr (List Dataset) :=
  match get_kaggle_auth username key with
  | .error e => .error e
  | .ok _ =>
      match resp with
      | .success datasets =>
          .ok (datasets.map (fun d =>
            ⟨d.title, d.ref, "https://www.kaggle.com/datasets/" ++ d.ref⟩))
      | .httpError status body =>
          .error ⟨status, "Failed to fetch Kaggle datasets: " ++ body⟩
      | .transportError _ =>
          .error ⟨503, "Could not connect to the Kaggle API."⟩

/-- One upstream competition object: `c['ref']`, `c['title']`,
`c['deadline']` (required). -/
structure CompetitionPayload where
  ref : String
  title : String
  deadline : String
deriving Repr, DecidableEq

/-- The `Competition` pydantic model. -/
structure Competition where
  ref : String
  title : String
  deadline : String
deriving Repr, DecidableEq

/-- Embedding of `fetch_competitions` (GET `/competitions`): same structure
and error mapping as `fetch_datasets`. -/
def fetch_competitions (username key : String)
    (resp : NetResult (List CompetitionPayload)) :
    Except HErr (List Competition) :=
  match get_kaggle_auth username key with
  | .error e => .error e
  | .ok _ =>
      match resp with
      | .success competitions =>
          .ok (competitions.map (fun c => ⟨c.ref, c.title, c.deadline⟩))
      | .httpError status body =>
          .error ⟨status, "Failed to fetch Kaggle competitions: " ++ body⟩
      | .transportError _ =>
          .error ⟨503, "Could not connect to the Kaggle API."⟩

end Kaggle

namespace EndpointsHn

/-- One Algolia hit of `endpoints/hn.py` (`objectID` must be present for
the pydantic model; the rest are read with `.get`). -/
structure Hit where
  objectID : String
  title : Option String
  url : Option String
  points : Option Int
  author : Option String
deriving Repr, DecidableEq

/-- The `Story` pydantic model of `endpoints/hn.py`. -/
structure Story where
  objectID : String
  title : String
  url : Option String
  points : Int
  author : String
deriving Repr, DecidableEq

/-- Embedding of `search_hacker_news` (GET `/search`): `hits` defaults to
`[]` when absent; hits with a falsy `title` are filtered out before
shaping; status-preserving HTTP error, 503 transport error. -/
def search_hacker_news (resp : NetResult (Option (List Hit))) :
    Except HErr (List Story) :=
  match resp with
  | .success hits =>
      .ok (((hits.getD []).filter (fun h => pyTruthyStr h.title)).map (fun h =>
        ⟨h.objectID, h.title.getD "No Title", h.url, h.points.getD 0,
          h.author.getD "No Author"⟩))
  | .httpError status body =>
      .error ⟨status, "Error searching Hacker News: " ++ body⟩
  | .transportError msg =>
      .error ⟨503, "Service unavailable: " ++ msg⟩

end EndpointsHn

namespace EndpointsSo

/-- The `Owner` pydantic model of `endpoints/so.py`. -/
structure Owner where
  display_name : String
deriving Repr, DecidableEq

/-- The `Question` pydantic model of `endpoints/so.py`
(`SearchResponse(**resp.json())` requires every field, so well-formed
payloads carry them all). -/
structure Question where
  question_id : Int
  title : String
  link : String
  owner : Owner
  tags : List String
  score : Int
  is_answered : Bool
deriving Repr, DecidableEq

/-- Embedding of `search_stackoverflow` (GET `/search`): the parsed `items`
are returned verbatim; status-preserving HTTP error, 503 transport
error. -/
def search_stackoverflow (resp : NetResult (List Question)) :
    Except HErr (List Question) :=
  match resp with
  | .success items => .ok items
  | .httpError status body =>
      .error ⟨status, "Error searching Stack Overflow: " ++ body⟩
  | .transportError msg =>
      .error ⟨503, "Service unavailable: " ++ msg⟩

end EndpointsSo

namespace Npm

/-- The `dist-tags` object of the npm registry payload (`latest` read with
`.get`). -/
structure DistTags where
  latest : Option String
deriving Repr, DecidableEq

/-- The decoded npm registry payload (each key read with `.get`). -/
structure NpmPayload where
  name : Option String
  description : Option String
  dist_tags : Option DistTags
  homepage : Option String
deriving Repr, DecidableEq

/-- The `NpmPackage` pydantic model of `endpoints/npm.py`. -/
structure NpmPackage where
  name : String
  description : Option String
  latest_version : String
  homepage : Option String
deriving Repr, DecidableEq

/-- The computation `data.get("dist-tags", {}).get("latest", "0.0.0")`. -/
def latestOf (d : NpmPayload) : String :=
  match d.dist_tags with
  | none => "0.0.0"
  | some dt => dt.latest.getD "0.0.0"

/-- Embedding of `fetch_npm_package` (GET `/{package_name}`): 404 names the
package, other HTTP errors keep their status, transport errors are 503. -/
def fetch_npm_package (package_name : String) (resp : NetResult NpmPayload) :
    Except HErr NpmPackage :=
  match resp with
  | .success data =>
      .ok ⟨data.name.getD package_name, some (data.description.getD ""),
        latestOf data, data.homepage⟩
  | .httpError status body =>
      if status = 404 then
        .error ⟨404, "Package '" ++ package_name ++ "' not found on npm."⟩
      else
        .error ⟨status, "Error fetching npm package: " ++ body⟩
  | .transportError msg =>
      .error ⟨503, "Service unavailable: " ++ msg⟩

/-- The `NpmLatestVersion` pydantic model. -/
structure NpmLatestVersion where
  package_name : String
  latest_version : String
deriving Repr, DecidableEq

/-- Embedding of `fetch_npm_latest` (GET `/{package_name}/latest`): same
error mapping as `fetch_npm_package`, different message prefix. -/
def fetch_npm_latest (package_name : String) (resp : NetResult NpmPayload) :
    Except HErr NpmLatestVersion :=
  match resp with
  | .success data =>
      .ok ⟨data.name.getD package_name, latestOf data⟩
  | .httpError status body =>
      if status = 404 then
        .error ⟨404, "Package '" ++ package_name ++ "' not found on npm."⟩
      else
        .error ⟨status, "Error fetching npm version: " ++ body⟩
  | .transportError msg =>
      .error ⟨503, "Service unavailable: " ++ msg⟩

end Npm

namespace Pypi

/-- The `info` object of the PyPI payload (each key read with `.get`). -/
structure InfoPayload where
  name : Option String
  version : Option String
  summary : Option String
  author : Option String
  home_page : Option String
deriving Repr, DecidableEq

/-- The `PackageInfo` pydantic model of `endpoints/pypi.py`. -/
structure PackageInfo where
  name : String
  version : String
  summary : String
  author : Option String
  home_page : Option String
deriving Repr, DecidableEq

/-- Embedding of `fetch_package_details` (GET `/{package_name}`):
`resp.json()["info"]` is read after the try/except, so a missing `info`
key (`none`) raises an unhandled `KeyError` → FastAPI's generic 500; 404
names the package, other HTTP errors keep their status, transport errors
are 503. -/
def fetch_package_details (package_name : String)
    (resp : NetResult (Option InfoPayload)) : Except HErr PackageInfo :=
  match resp with
  | .success (some info) =>
      .ok ⟨info.name.getD "No Name", info.version.getD "0.0.0",
        info.summary.getD "", info.author, info.home_page⟩
  | .success none => .error ⟨500, "Internal Server Error"⟩
  | .httpError status body =>
      if status = 404 then
        .error ⟨404, "Package '" ++ package_name ++ "' not found on PyPI."⟩
      else
        .error ⟨status, "Error fetching package details: " ++ body⟩
  | .transportError msg =>
      .error ⟨503, "Service unavailable: " ++ msg⟩

/-- The `LatestVersion` pydantic model. -/
structure LatestVersion where
  package_name : String
  latest_version : String
deriving Repr, DecidableEq

/-- Embedding of `fetch_latest_version` (GET `/{package_name}/latest`):
same structure as `fetch_package_details`, different message prefix and
name default. -/
def fetch_latest_version (package_name : String)
    (resp : NetResult (Option InfoPayload)) : Except HErr LatestVersion :=
  match resp with
  | .success (some info) =>
      .ok ⟨info.name.getD package_name, info.version.getD "0.0.0"⟩
  | .success none => .error ⟨500, "Internal Server Error"⟩
  | .httpError status body =>
      if status = 404 then
        .error ⟨404, "Package '" ++ package_name ++ "' not found on PyPI."⟩
      else
        .error ⟨status, "Error fetching package version: " ++ body⟩
  | .transportError msg =>
      .error ⟨503, "Service unavailable: " ++ msg⟩

end Pypi

namespace Reddit

/-- The fields of `p["data"]` read by `search_subreddit` (`id` must be
present for the pydantic model; the rest are read with `.get`). -/
structure PostData where
  id : String
  title : Option String
  subreddit : Option String
  permalink : Option String
  author : Option String
  score : Option Int
deriving Repr, DecidableEq

/-- One element of `children`: `p["data"]` is required. -/
structure Child where
  data : PostData
deriving Repr, DecidableEq

/-- The parsed listing: `resp.json().get("data", {}).get("children", [])`;
either level may be absent, defaulting to `[]`. -/
structure Listing where
  data : Option (Option (List Child))
deriving Repr, DecidableEq

/-- The `Post` pydantic model of `endpoints/reddit.py`. -/
structure Post where
  id : String
  title : String
  subreddit : String
  url : String
  author : String
  score : Int
deriving Repr, DecidableEq

/-- The effective children list after the two `.get` defaults. -/
def Listing.children (l : Listing) : List Child :=
  match l.data with
  | none => []
  | some cs => cs.getD []

/-- Embedding of `search_subreddit` (GET `/r/{subreddit}/search`): one
record per child, the url synthesized from the permalink and the base URL;
status-preserving HTTP error, 503 transport error. -/
def search_subreddit (subreddit : String) (resp : NetResult Listing) :
    Except HErr (List Post) :=
  match resp with
  | .success listing =>
      .ok (listing.children.map (fun p =>
        ⟨p.data.id, p.data.title.getD "No Title", p.data.subreddit.getD subreddit,
          "https://www.reddit.com" ++ p.data.permalink.getD "",
          p.data.author.getD "No Author", p.data.score.getD 0⟩))
  | .httpError status body =>
      .error ⟨status, "Error searching Reddit: " ++ body⟩
  | .transportError msg =>
      .error ⟨503, "Service unavailable: " ++ msg⟩

end Reddit

/-- Helper: over a batch whose successful item payloads all have type
`"story"`, the fan-out comprehension keeps exactly the successful fetches,
in batch order. -/
theorem hn_fanout_shape (F : Int → Option HackerNews.ItemData) :
    ∀ l : List Int,
      ((l.map F).all (fun r =>
        match r with
        | some d => d.type_ == some "story"
        | none => true)) = true →
      (l.map F).filterMap (fun data =>
          match data with
          | some d =>
              if d.type_ = some "story" then some (HackerNews.Story.ofItem d)
              else none
          | none => none) =
        (l.filterMap F).map HackerNews.Story.ofItem := by
  intro l
  induction l with
  | nil => intro _; rfl
  | cons i l ih =>
      intro h
      simp only [List.map_cons, List.all_cons, Bool.and_eq_true] at h
      obtain ⟨hi, hl⟩ := h
      cases hF : F i with
      | none => simpa [List.filterMap_cons, hF] using ih hl
      | some d =>
          rw [hF] at hi
          have hd : d.type_ = some "story" := by simpa using hi
          simpa [List.filterMap_cons, hF, hd] using ih hl

/-- Helper: a `filterMap` keeps batch length minus the failed entries. -/
theorem hn_fanout_count (F : Int → Option HackerNews.ItemData) :
    ∀ l : List Int,
      (l.filterMap F).length +
        (l.filter (fun i => (F i).isNone)).length = l.length := by
  intro l
  induction l with
  | nil => rfl
  | cons i l ih =>
      cases hF : F i with
      | none => simp [List.filterMap_cons, List.filter_cons, hF]; omega
      | some d => simp [List.filterMap_cons, List.filter_cons, hF]; omega

/-- Claim C1, counterexample: a one-element identifier list whose single
follow-up call succeeds (returns a non-null item) but whose item has type
`"job"` yields an empty result — 0 records, not k − m = 1 − 0 = 1, because
the comprehension also drops successfully fetched non-`"story"` items. -/
theorem c1_hn_fanout_counterexample :
    HackerNews.get_stories_by_type "top" (.success [17])
      (fun _ => .success (some ⟨17, some "Job post", none, none, none, none, some "job", none⟩)) =
      .ok [] ∧
    HackerNews.fetch_item
      (.success (some (⟨17, some "Job post", none, none, none, none, some "job", none⟩ :
        HackerNews.ItemData))) ≠ none ∧
    [(17 : Int)].length - 0 = 1 := by
  refine ⟨rfl, ?_, rfl⟩
  simp [HackerNews.fetch_item]

/-- Claim C1, amended: the identifier list is first capped at 10; each capped
identifier contributes one `Story` exactly when its follow-up call succeeds
with a non-null payload, in identifier order — provided every successful
payload has type `"story"` (otherwise it is also dropped).  Under that
proviso the result has k′ − m entries, where k′ is the capped length and m
the number of failed (or null) follow-ups. -/
theorem c1_hn_fanout (story_type : String) (ids : List Int)
    (itemResp : Int → NetResult (Option HackerNews.ItemData))
    (h : (((ids.take 10).map (fun i => HackerNews.fetch_item (itemResp i))).all
      (fun r =>
        match r with
        | some d => d.type_ == some "story"
        | none => true)) = true) :
    HackerNews.get_stories_by_type story_type (.success ids) itemResp =
      .ok (((ids.take 10).filterMap
        (fun i => HackerNews.fetch_item (itemResp i))).map HackerNews.Story.ofItem) ∧
    (((ids.take 10).filterMap
        (fun i => HackerNews.fetch_item (itemResp i))).map HackerNews.Story.ofItem).length =
      (ids.take 10).length -
        ((ids.take 10).filter
          (fun i => (HackerNews.fetch_item (itemResp i)).isNone)).length := by
  constructor
  · show Except.ok _ = _
    rw [hn_fanout_shape (fun i => HackerNews.fetch_item (itemResp i)) (ids.take 10) h]
  · rw [List.length_map]
    have := hn_fanout_count (fun i => HackerNews.fetch_item (itemResp i)) (ids.take 10)
    omega

/-- The concrete fan-out oracle for the C1 witness: id 2 fails with a
transport error, ids 1 and 3 return stories. -/
def c1Oracle : Int → NetResult (Option HackerNews.ItemData) :=
  fun i =>
    if i = 2 then .transportError "boom"
    else .success (some ⟨i, some "t", none, some "a", some 5, some 0, some "story", some 0⟩)

/-- Claim C1, witness: three identifiers, one failing follow-up, two story
records in identifier order. -/
theorem c1_hn_fanout_witness :
    HackerNews.get_stories_by_type "top" (.success [1, 2, 3]) c1Oracle =
      .ok ((([1, 2, 3].take 10).filterMap
        (fun i => HackerNews.fetch_item (c1Oracle i))).map HackerNews.Story.ofItem) ∧
    ((([1, 2, 3].take 10).filterMap
        (fun i => HackerNews.fetch_item (c1Oracle i))).map HackerNews.Story.ofItem).length =
      ([1, 2, 3].take 10).length -
        (([1, 2, 3].take 10).filter
          (fun i => (HackerNews.fetch_item (c1Oracle i)).isNone)).length :=
  c1_hn_fanout "top" [1, 2, 3] c1Oracle (by decide)

/-- Claim C2: the Stack Overflow user endpoints resolve the target user in
priority order — (1) truthy explicit `user_id` (no upstream call), (2)
configured default ID (no upstream call), (3) truthy explicit `username` via
one lookup call, (4) configured default username via one lookup call — and
when none of the four is available, the request fails 400 with zero upstream
calls made (in particular `fetch_questions` makes none). -/
theorem c2_so_resolution_priority (cfg : StackOverflow.Config)
    (lookupResp : String → NetResult (List StackOverflow.UserItem))
    (questionsResp : Int → NetResult (List StackOverflow.Question))
    (user_id : Option Int) (username : Option String) :
    (pyTruthyInt user_id = true →
      StackOverflow.resolve_user_id cfg lookupResp user_id username =
        (.ok (user_id.getD 0), 0)) ∧
    (pyTruthyInt user_id = false → pyTruthyStr cfg.defaultUserId = true →
      StackOverflow.resolve_user_id cfg lookupResp user_id username =
        (.ok (StackOverflow.pyInt (cfg.defaultUserId.getD "")), 0)) ∧
    (pyTruthyInt user_id = false → pyTruthyStr cfg.defaultUserId = false →
      pyTruthyStr username = true →
      StackOverflow.resolve_user_id cfg lookupResp user_id username =
        (StackOverflow.get_user_id_from_username (lookupResp (username.getD ""))
          (username.getD ""), 1)) ∧
    (pyTruthyInt user_id = false → pyTruthyStr cfg.defaultUserId = false →
      pyTruthyStr username = false → pyTruthyStr cfg.defaultUsername = true →
      StackOverflow.resolve_user_id cfg lookupResp user_id username =
        (StackOverflow.get_user_id_from_username (lookupResp (cfg.defaultUsername.getD ""))
          (cfg.defaultUsername.getD ""), 1)) ∧
    (pyTruthyInt user_id = false → pyTruthyStr cfg.defaultUserId = false →
      pyTruthyStr username = false → pyTruthyStr cfg.defaultUsername = false →
      StackOverflow.resolve_user_id cfg lookupResp user_id username =
        (.error ⟨400, "A Stack Overflow user_id or username must be provided."⟩, 0) ∧
      StackOverflow.fetch_questions cfg lookupResp questionsResp user_id username =
        (.error ⟨400, "A Stack Overflow user_id or username must be provided."⟩, 0)) := by
  refine ⟨?_, ?_, ?_, ?_, ?_⟩
  · intro h1
    simp [StackOverflow.resolve_user_id, h1]
  · intro h1 h2
    simp [StackOverflow.resolve_user_id, h1, h2]
  · intro h1 h2 h3
    simp [StackOverflow.resolve_user_id, h1, h2, h3]
  · intro h1 h2 h3 h4
    simp [StackOverflow.resolve_user_id, h1, h2, h3, h4]
  · intro h1 h2 h3 h4
    have hres : StackOverflow.resolve_user_id cfg lookupResp user_id username =
        (.error ⟨400, "A Stack Overflow user_id or username must be provided."⟩, 0) := by
      simp [StackOverflow.resolve_user_id, h1, h2, h3, h4]
    exact ⟨hres, by simp [StackOverflow.fetch_questions, hres]⟩

/-- Claim C2, witness: no explicit identity and no configured defaults —
`fetch_questions` fails 400 with zero upstream calls. -/
theorem c2_so_resolution_priority_witness :
    StackOverflow.fetch_questions ⟨none, none⟩ (fun _ => .transportError "net")
      (fun _ => .transportError "net") none none =
      (.error ⟨400, "A Stack Overflow user_id or username must be provided."⟩, 0) :=
  ((c2_so_resolution_priority ⟨none, none⟩ (fun _ => .transportError "net")
    (fun _ => .transportError "net") none none).2.2.2.2 rfl rfl rfl rfl).2

/-- Claim C3: for every well-formed upstream contest list, the `/contests`
response is exactly the `phase = "BEFORE"` contests (filter applied before
the cap), capped at 10, and every returned contest has phase `"BEFORE"` and
link `https://codeforces.com/contest/<id>`. -/
theorem c3_cf_contests (contests : List Codeforces.ContestPayload) :
    Codeforces.get_contests (.success (some contests)) =
      .ok (((contests.filter (fun c => c.phase == some "BEFORE")).map
        Codeforces.Contest.ofPayload).take 10) ∧
    ((((contests.filter (fun c => c.phase == some "BEFORE")).map
        Codeforces.Contest.ofPayload).take 10).length ≤ 10) ∧
    ((((contests.filter (fun c => c.phase == some "BEFORE")).map
        Codeforces.Contest.ofPayload).take 10).all (fun k =>
      k.phase == "BEFORE" &&
        k.link == "https://codeforces.com/contest/" ++ toString k.id)) = true := by
  refine ⟨rfl, ?_, ?_⟩
  · simp [List.length_take_le]
  · rw [List.all_eq_true]
    intro k hk
    have hk' := List.take_subset 10 _ hk
    obtain ⟨c, hc, rfl⟩ := List.mem_map.mp hk'
    have hphase : (c.phase == some "BEFORE") = true := (List.mem_filter.mp hc).2
    have : c.phase = some "BEFORE" := by simpa using hphase
    simp [Codeforces.Contest.ofPayload, this]

/-- Claim C4: in the GitLab pipelines fan-out, a failing first-stage
projects call fails the whole request (status-preserving for an HTTP error,
503 for a transport error), while a failing per-project pipelines call
contributes `[]` — the project is dropped and the aggregate succeeds with
the remaining projects' pipelines, flattened in project order. -/
theorem c4_gitlab_failure_isolation (token : String) (h : token ≠ "") :
    (∀ status body pipelinesResp,
      GitLab.fetch_pipelines token (.httpError status body) pipelinesResp =
        .error ⟨status, "Failed to fetch initial projects for pipelines: " ++ body⟩) ∧
    (∀ msg pipelinesResp,
      GitLab.fetch_pipelines token (.transportError msg) pipelinesResp =
        .error ⟨503, "Could not connect to the GitLab API."⟩) ∧
    (∀ projects pipelinesResp,
      GitLab.fetch_pipelines token (.success projects) pipelinesResp =
        .ok ((projects.map (fun p =>
          GitLab.get_pipelines_for_project p (pipelinesResp p.id))).flatten)) ∧
    (∀ project status body,
      GitLab.get_pipelines_for_project project (.httpError status body) = []) ∧
    (∀ project msg,
      GitLab.get_pipelines_for_project project (.transportError msg) = []) := by
  refine ⟨?_, ?_, ?_, ?_, ?_⟩ <;>
    intros <;>
    simp [GitLab.fetch_pipelines, GitLab.get_gitlab_headers,
      GitLab.get_pipelines_for_project, h]

/-- Claim C4, witness: with a set token, a failing first-stage call fails
the request, and a failing per-project call contributes nothing. -/
theorem c4_gitlab_failure_isolation_witness :
    GitLab.fetch_pipelines "tok" (.httpError 500 "b") (fun _ => .success []) =
      .error ⟨500, "Failed to fetch initial projects for pipelines: b"⟩ ∧
    GitLab.get_pipelines_for_project ⟨7, "proj"⟩ (.transportError "refused") = [] :=
  ⟨(c4_gitlab_failure_isolation "tok" (by decide)).1 500 "b" (fun _ => .success []),
   (c4_gitlab_failure_isolation "tok" (by decide)).2.2.2.2 ⟨7, "proj"⟩ "refused"⟩

/-- Claim C5, counterexample: a transport failure on the Hacker News
single-item endpoint yields a 404 ("not found or failed to fetch"), not the
claimed 503. -/
theorem c5_transport_counterexample :
    HackerNews.get_story_item 42 (.transportError "connection refused") =
      .error ⟨404, "Item with ID 42 not found or failed to fetch."⟩ ∧
    (404 : Nat) ≠ 503 := ⟨rfl, by decide⟩

/-- Claim C5, amended: with credentials and configured defaults in place, a
transport-level failure reaching the upstream results in a 503 with a
generic could-not-connect / service-unavailable message for every adapter
endpoint, with these exceptions: the HN single-item endpoint folds the
failure into a 404 naming the item; the GFG POTD endpoint and the GitHub
my-pull-requests endpoint catch it in blanket exception handlers that
report a generic 500; the second-stage call of the Stack Overflow
questions/answers endpoints has no transport handler at all, so the failure
escapes as an unhandled 500; and a transport failure of a fan-out follow-up
call (HN per-item, GitLab per-project) is silently dropped per the fan-out
policy rather than producing an error response. -/
theorem c5_transport_mapping
    (glToken cfHandle kagUser kagKey : String)
    (ghToken devtoKey : Option String) (soUid : Int)
    (hgl : glToken ≠ "") (hcf : cfHandle ≠ "")
    (hgh : pyTruthyStr ghToken = true) (hdev : pyTruthyStr devtoKey = true)
    (hkU : kagUser ≠ "") (hkK : kagKey ≠ "") (huid : soUid ≠ 0) :
    (∀ (α : Type) (searchResp : String → NetResult (Option (List α))) msg,
      GithubOld.fetch_my_pull_requests α ghToken (.transportError msg) searchResp =
        .error ⟨500, "An unexpected error occurred while fetching PRs."⟩) ∧
    (∀ cfg lookupResp username msg,
      StackOverflow.fetch_questions cfg lookupResp
        (fun _ => .transportError msg) (some soUid) username =
        (.error ⟨500, "Internal Server Error"⟩, 1)) ∧
    (∀ pipelinesResp msg,
      GitLab.fetch_pipelines glToken (.transportError msg) pipelinesResp =
        .error ⟨503, "Could not connect to the GitLab API."⟩) ∧
    (∀ (α : Type) (u : GithubOld.UserLoginPayload) msg,
      GithubOld.fetch_my_pull_requests α ghToken (.success u)
        (fun _ => .transportError msg) =
        .error ⟨500, "An unexpected error occurred while fetching PRs."⟩) ∧
    (∀ cfg lookupResp username msg,
      StackOverflow.fetch_answers cfg lookupResp
        (fun _ => .transportError msg) (some soUid) username =
        (.error ⟨500, "Internal Server Error"⟩, 1)) ∧
    (∀ item_id msg, HackerNews.get_story_item item_id (.transportError msg) =
      .error ⟨404, "Item with ID " ++ toString item_id ++
        " not found or failed to fetch."⟩) ∧
    (∀ msg, GFG.get_gfg_potd (.transportError msg) =
      .error ⟨500, "Failed to fetch or parse the GFG POTD page."⟩) ∧
    (∀ msg, Codeforces.get_contests (.transportError msg) =
      .error ⟨503, "Could not connect to the Codeforces API."⟩) ∧
    (∀ handle strftime msg,
      Codeforces.get_user_info handle strftime (.transportError msg) =
        .error ⟨503, "Could not connect to the Codeforces API."⟩) ∧
    (∀ strftime msg,
      Codeforces.get_default_user_info cfHandle strftime (.transportError msg) =
        .error ⟨503, "Could not connect to the Codeforces API."⟩) ∧
    (∀ story_type itemResp msg,
      HackerNews.get_stories_by_type story_type (.transportError msg) itemResp =
        .error ⟨503, "Could not connect to the Hacker News API."⟩) ∧
    (∀ user_id msg, HackerNews.fetch_user user_id (.transportError msg) =
      .error ⟨503, "Could not connect to the Hacker News API."⟩) ∧
    (∀ msg, GitLab.fetch_projects glToken (.transportError msg) =
      .error ⟨503, "Could not connect to the GitLab API."⟩) ∧
    (∀ msg, GitLab.fetch_issues glToken (.transportError msg) =
      .error ⟨503, "Could not connect to the GitLab API."⟩) ∧
    (∀ msg, GithubOld.fetch_repos ghToken (.transportError msg) =
      .error ⟨503, "Could not connect to the GitHub API."⟩) ∧
    (∀ msg, GithubOld.fetch_issues ghToken (.transportError msg) =
      .error ⟨503, "Could not connect to the GitHub API."⟩) ∧
    (∀ owner repo msg,
      GithubOld.fetch_pull_requests ghToken owner repo (.transportError msg) =
        .error ⟨503, "Could not connect to the GitHub API."⟩) ∧
    (∀ msg, Devto.fetch_articles devtoKey (.transportError msg) =
      .error ⟨503, "Service unavailable: " ++ msg⟩) ∧
    (∀ article_id msg,
      Devto.fetch_single_article devtoKey article_id (.transportError msg) =
        .error ⟨503, "Service unavailable: " ++ msg⟩) ∧
    (∀ msg, Kaggle.fetch_datasets kagUser kagKey (.transportError msg) =
      .error ⟨503, "Could not connect to the Kaggle API."⟩) ∧
    (∀ msg, Kaggle.fetch_competitions kagUser kagKey (.transportError msg) =
      .error ⟨503, "Could not connect to the Kaggle API."⟩) ∧
    (∀ username msg, GFG.get_gfg_stats username (.transportError msg) =
      .error ⟨503, "Could not connect to the GFG stats service."⟩) ∧
    (∀ msg, StackOverflow.fetch_featured_questions (.transportError msg) =
      .error ⟨503, "Could not connect to the Stack Exchange API."⟩) ∧
    (∀ username msg,
      StackOverflow.get_user_id_from_username (.transportError msg) username =
        .error ⟨503, "Could not connect to the Stack Exchange API."⟩) ∧
    (∀ owner repo msg, GithubEp.fetch_releases owner repo (.transportError msg) =
      .error ⟨503, "Service unavailable: " ++ msg⟩) ∧
    (∀ msg, EndpointsHn.search_hacker_news (.transportError msg) =
      .error ⟨503, "Service unavailable: " ++ msg⟩) ∧
    (∀ msg, EndpointsSo.search_stackoverflow (.transportError msg) =
      .error ⟨503, "Service unavailable: " ++ msg⟩) ∧
    (∀ package_name msg, Npm.fetch_npm_package package_name (.transportError msg) =
      .error ⟨503, "Service unavailable: " ++ msg⟩) ∧
    (∀ package_name msg, Npm.fetch_npm_latest package_name (.transportError msg) =
      .error ⟨503, "Service unavailable: " ++ msg⟩) ∧
    (∀ package_name msg,
      Pypi.fetch_package_details package_name (.transportError msg) =
        .error ⟨503, "Service unavailable: " ++ msg⟩) ∧
    (∀ package_name msg,
      Pypi.fetch_latest_version package_name (.transportError msg) =
        .error ⟨503, "Service unavailable: " ++ msg⟩) ∧
    (∀ subreddit msg, Reddit.search_subreddit subreddit (.transportError msg) =
      .error ⟨503, "Service unavailable: " ++ msg⟩) ∧
    (∀ msg, HackerNews.fetch_item (.transportError msg) = none) ∧
    (∀ project msg,
      GitLab.get_pipelines_for_project project (.transportError msg) = []) := by
  refine ⟨?_, ?_, ?_, ?_, ?_, ?_, ?_, ?_, ?_, ?_, ?_, ?_, ?_, ?_, ?_, ?_, ?_,
    ?_, ?_, ?_, ?_, ?_, ?_, ?_, ?_, ?_, ?_, ?_, ?_, ?_, ?_, ?_, ?_, ?_⟩ <;>
    intros <;>
    first
    | rfl
    | simp [GithubOld.fetch_my_pull_requests, GithubOld.get_headers,
        GithubOld.fetch_repos, GithubOld.fetch_issues, GithubOld.fetch_pull_requests,
        StackOverflow.fetch_questions, StackOverflow.fetch_answers,
        StackOverflow.resolve_user_id, pyTruthyInt,
        GitLab.fetch_pipelines, GitLab.fetch_projects, GitLab.fetch_issues,
        GitLab.get_gitlab_headers,
        Codeforces.get_default_user_info,
        Devto.fetch_articles, Devto.fetch_single_article, Devto.get_headers,
        Kaggle.fetch_datasets, Kaggle.fetch_competitions, Kaggle.get_kaggle_auth,
        hgl, hcf, hgh, hdev, hkU, hkK, huid]

/-- Claim C5, witness: concrete credentials and a concrete transport
failure exercising the GitHub my-pulls 500, the Stack Overflow second-stage
unhandled 500, and the GitLab first-stage 503. -/
theorem c5_transport_mapping_witness :
    GithubOld.fetch_my_pull_requests Unit (some "ghp") (.transportError "refused")
      (fun _ => .success (some [])) =
      .error ⟨500, "An unexpected error occurred while fetching PRs."⟩ ∧
    StackOverflow.fetch_questions ⟨none, none⟩ (fun _ => .success [])
      (fun _ => .transportError "refused") (some 22) none =
      (.error ⟨500, "Internal Server Error"⟩, 1) ∧
    GitLab.fetch_pipelines "glpat" (.transportError "refused") (fun _ => .success []) =
      .error ⟨503, "Could not connect to the GitLab API."⟩ := by
  have T := c5_transport_mapping "glpat" "tourist" "kuser" "kkey"
    (some "ghp") (some "devkey") 22 (by decide) (by decide) (by decide)
    (by decide) (by decide) (by decide) (by decide)
  exact ⟨T.1 Unit (fun _ => .success (some [])) "refused",
    T.2.1 ⟨none, none⟩ (fun _ => .success []) none "refused",
    T.2.2.1 (fun _ => .success []) "refused"⟩

/-- Claim C7: the GitHub releases endpoint's docstring promises the latest
30 releases, but the handler shapes and returns **every** element of the
upstream array — an upstream page of 31 releases comes back as 31 records,
with no `[:30]` truncation. -/
theorem c7_github_releases_uncapped :
    GithubEp.fetch_releases "o" "r"
      (.success (List.replicate 31 (⟨some "v1", some "r1", some "u1", some "2020"⟩ :
        GithubEp.ReleasePayload))) =
      .ok (List.replicate 31 (GithubEp.Release.ofPayload
        ⟨some "v1", some "r1", some "u1", some "2020"⟩)) ∧
    (List.replicate 31 (GithubEp.Release.ofPayload
      (⟨some "v1", some "r1", some "u1", some "2020"⟩ : GithubEp.ReleasePayload))).length = 31 ∧
    ¬ (31 : Nat) ≤ 30 := by
  refine ⟨?_, by simp, by decide⟩
  simp [GithubEp.fetch_releases, List.map_replicate]

/-- Claim C8, counterexample: a fetched page with no POTD container (and
likewise one with a container but no anchor) yields a **successful**
placeholder record, not the generic scrape-failed error. -/
theorem c8_scrape_counterexample :
    GFG.get_gfg_potd (.success ⟨none⟩) =
      .ok ⟨some "Could not parse POTD title/link from page", some GFG.potdUrl⟩ ∧
    GFG.get_gfg_potd (.success ⟨some none⟩) =
      .ok ⟨some "Could not parse POTD title/link from page", some GFG.potdUrl⟩ ∧
    GFG.get_gfg_potd (.success ⟨none⟩) ≠
      .error ⟨500, "Failed to fetch or parse the GFG POTD page."⟩ := by
  refine ⟨rfl, rfl, ?_⟩
  simp [GFG.get_gfg_potd]

/-- Claim C8, amended: network and HTTP-status failures (and anything the
blanket `except Exception` catches) collapse to the one generic 500
scrape-failed error; a missing container or missing anchor instead returns
a successful fixed placeholder record (title "Could not parse…", link = the
page URL) — partial page structure is never surfaced, but those two cases
are not errors. -/
theorem c8_scrape_behavior :
    (∀ status body, GFG.get_gfg_potd (.httpError status body) =
      .error ⟨500, "Failed to fetch or parse the GFG POTD page."⟩) ∧
    (∀ msg, GFG.get_gfg_potd (.transportError msg) =
      .error ⟨500, "Failed to fetch or parse the GFG POTD page."⟩) ∧
    GFG.get_gfg_potd (.success ⟨none⟩) =
      .ok ⟨some "Could not parse POTD title/link from page", some GFG.potdUrl⟩ ∧
    GFG.get_gfg_potd (.success ⟨some none⟩) =
      .ok ⟨some "Could not parse POTD title/link from page", some GFG.potdUrl⟩ ∧
    (∀ a, GFG.get_gfg_potd (.success ⟨some (some a)⟩) =
      .ok ⟨some a.text.trim, some a.href⟩) := by
  exact ⟨fun _ _ => rfl, fun _ => rfl, rfl, rfl, fun _ => rfl⟩

/-- Claim C9: every source prefix enumerated by GET `/features` is a
registered router prefix and vice versa — the two sets coincide (here even
element for element). -/
theorem c9_features_lockstep :
    ∀ p : String,
      p ∈ Aggregator.featuresPrefixes ↔ p ∈ Aggregator.registeredPrefixes := by
  have h : Aggregator.featuresPrefixes = Aggregator.registeredPrefixes := by decide
  intro p
  rw [h]

/-- Claim C10: in `resolve_user_id`, an explicit `user_id` of 0 is falsy and
behaves exactly like an absent user ID (resolution falls through to the
configured default ID, then the username lookups), and an empty-string
`username` likewise behaves exactly like an absent username. -/
theorem c10_so_falsy_identity (cfg : StackOverflow.Config)
    (lookupResp : String → NetResult (List StackOverflow.UserItem))
    (user_id : Option Int) (username : Option String) :
    StackOverflow.resolve_user_id cfg lookupResp (some 0) username =
      StackOverflow.resolve_user_id cfg lookupResp none username ∧
    StackOverflow.resolve_user_id cfg lookupResp user_id (some "") =
      StackOverflow.resolve_user_id cfg lookupResp user_id none := by
  constructor
  · simp [StackOverflow.resolve_user_id, pyTruthyInt]
  · simp [StackOverflow.resolve_user_id, pyTruthyStr]
